import Mathlib

/-
Verification of the dyslexia-screening server core (src/server.py).

The scorer, aggregator and route logic are embedded as pure Lean
functions over rational numbers (Python floats carry only small sums of
3.0 and 4.0 divided by token counts, all exactly representable).

External collaborators of the repository (the nltk tokenizer
word_tokenize and the nltk vocabulary corpus) are not part of the
repository source; the tokenizer is modelled from the spec and the
vocabulary is passed to the scorer as a read-only boolean oracle, as the
spec directs for testability.
-/

namespace DyslexiaScreen

/-- Model of the Python method str.strip used in analyze_response:
drops whitespace from both ends of the string. -/
def pyStrip (s : String) : String :=
  String.mk (((s.data.dropWhile Char.isWhitespace).reverse.dropWhile Char.isWhitespace).reverse)

/-- Splits a character list at whitespace characters; chunks between
consecutive whitespace characters are returned empty and are filtered
out later by the alphanumeric check. -/
def splitWsAux : List Char → List Char → List (List Char)
  | [], acc => [acc.reverse]
  | c :: cs, acc =>
    if c.isWhitespace then acc.reverse :: splitWsAux cs []
    else splitWsAux cs (c :: acc)

def splitWs (cs : List Char) : List (List Char) :=
  splitWsAux cs []

/-- Modelled from the spec: the repository calls nltk word_tokenize, an
external library that is not part of the repository source. Per spec
section 4.1 the tokenizer lowercases the input, splits it into
word-like units, and retains only tokens that are purely alphanumeric
(the Python code filters with str.isalnum, which also drops empty
strings). It is modelled here as a whitespace split of the lowercased
text followed by the alphanumeric filter from src/server.py line 93. -/
def tokenize_and_clean_text (text : String) : List String :=
  ((splitWs (text.data.map Char.toLower)).map String.mk).filter
    (fun w => !w.data.isEmpty && w.data.all Char.isAlphanum)

/-- The 20 letter-confusion pairs from src/server.py lines 48-53. -/
def DYSLEXIC_LETTER_CONFUSIONS : List (Char × Char) :=
  [('b', 'd'), ('p', 'q'), ('m', 'w'), ('n', 'u'), ('n', 'r'),
   ('i', 'j'), ('a', 'e'), ('s', 'z'), ('f', 't'), ('c', 'k'),
   ('g', 'q'), ('h', 'n'), ('v', 'w'), ('b', 'p'), ('c', 's'),
   ('d', 't'), ('o', 'e'), ('a', 'o'), ('u', 'v'), ('m', 'n')]

/-- The word-confusion groups from src/server.py lines 56-65. -/
def DYSLEXIC_WORD_CONFUSIONS : List (List String) :=
  [["was", "saw"], ["there", "their"], ["here", "hear"],
   ["you", "your"], ["where", "wear"], ["to", "too", "two"],
   ["here", "here"], ["their", "there"], ["its", "it\x27s"],
   ["where", "were"], ["new", "knew"], ["your", "you\x27re"],
   ["break", "brake"], ["bare", "bear"], ["peace", "piece"],
   ["right", "write"], ["flower", "flour"], ["buy", "by", "bye"],
   ["no", "know"], ["for", "four"], ["sun", "son"],
   ["allowed", "aloud"], ["hour", "our"], ["blew", "blue"]]

/-- Threshold score for dyslexia indication, src/server.py line 44. -/
def DYSLEXIA_SCORE_THRESHOLD : ℚ := 3.5

/-- Maximum number of attempts allowed per assessment, src/server.py
line 45. -/
def MAX_ATTEMPTS : Nat := 3

/-- Character-level string reversal: the Python slice word[::-1]. -/
def strRev (s : String) : String :=
  String.mk s.data.reverse

/-- The body of the per-token loop of calculate_word_dyslexia_score,
src/server.py lines 117-136: the vocabulary penalty, the fold over the
letter-confusion pairs, the fold over the word-confusion groups, and
the reversal check against the first token of the reference sentence. -/
def token_dyslexia_score (vocab : String → Bool) (sentence_tokens : List String)
    (word_token : String) : ℚ :=
  let s1 : ℚ := if vocab word_token then 0 else 3
  let s2 : ℚ := DYSLEXIC_LETTER_CONFUSIONS.foldl
    (fun acc cp => if word_token.contains cp.1 && word_token.contains cp.2 then acc + 3 else acc) s1
  let s3 : ℚ := DYSLEXIC_WORD_CONFUSIONS.foldl
    (fun acc cg => if cg.contains word_token then acc + 4 else acc) s2
  if strRev word_token = sentence_tokens.headD "" then s3 + 3 else s3

/-- Embedding of calculate_word_dyslexia_score, src/server.py lines
98-143, with the vocabulary oracle passed as a parameter (the Python
global english_vocab). Under the non-emptiness guard the Python index
sentence_tokens[0] is modelled by headD with an irrelevant default. -/
def calculate_word_dyslexia_score (vocab : String → Bool)
    (word reference_sentence : String) : ℚ :=
  let word_tokens := tokenize_and_clean_text word
  let sentence_tokens := tokenize_and_clean_text reference_sentence
  if word_tokens.isEmpty || sentence_tokens.isEmpty then 0
  else
    (word_tokens.foldl (fun acc t => acc + token_dyslexia_score vocab sentence_tokens t) 0)
      / (word_tokens.length : ℚ)

/-- Spec-side formula for the per-token penalty before the reversal
check: 3.0 when the token is unknown, plus 3.0 per matching
letter-confusion pair, plus 4.0 per word-confusion group containing the
token. Written from the words of the spec (section 4.3, steps a-c), to
be compared with the source-side token_dyslexia_score. -/
def spec_pre_reversal_penalty (vocab : String → Bool) (t : String) : ℚ :=
  (if vocab t then 0 else 3)
    + 3 * ((DYSLEXIC_LETTER_CONFUSIONS.filter
        (fun cp => t.contains cp.1 && t.contains cp.2)).length : ℚ)
    + 4 * ((DYSLEXIC_WORD_CONFUSIONS.filter
        (fun cg => cg.contains t)).length : ℚ)

/-- Body of an HTTP JSON response of the analyze_response route: either
an error object or a score object with the isValid flag. -/
inductive AnalyzeBody where
  | err (msg : String)
  | result (score : ℚ) (isValid : Bool)
deriving DecidableEq

/-- An HTTP response: status code plus JSON body. -/
structure HttpResponse where
  status : Nat
  body : AnalyzeBody
deriving DecidableEq

/-- Embedding of the analyze_response route, src/server.py lines
224-240: both fields are stripped; if either is then empty the route
answers 200 with an error body, otherwise 200 with the score of the
stripped inputs. Flask jsonify without an explicit code sends 200. -/
def analyze_response (vocab : String → Bool) (userText sentence : String) : HttpResponse :=
  let user_text := pyStrip userText
  let reference_sentence := pyStrip sentence
  if user_text = "" || reference_sentence = "" then
    ⟨200, .err "Invalid input"⟩
  else
    ⟨200, .result (calculate_word_dyslexia_score vocab user_text reference_sentence) true⟩

/-- Verdict string for a mean score at or above the threshold,
src/server.py line 263. -/
def REPORT_VERDICT_POSITIVE : String := "Likelihood of dyslexia detected."

/-- Verdict string for a mean score below the threshold, src/server.py
line 263. -/
def REPORT_VERDICT_NEGATIVE : String := "No significant signs of dyslexia detected."

/-- Embedding of the aggregation step of generate_final_report,
src/server.py lines 256-263: reject when either list is empty,
otherwise return the mean score and the verdict string. -/
def generate_final_report (responses : List String) (scores : List ℚ) :
    Except String (ℚ × String) :=
  if responses.isEmpty || scores.isEmpty then .error "Insufficient data"
  else
    let avg_score := scores.sum / (scores.length : ℚ)
    let verdict := if avg_score ≥ DYSLEXIA_SCORE_THRESHOLD
      then REPORT_VERDICT_POSITIVE else REPORT_VERDICT_NEGATIVE
    .ok (avg_score, verdict)

/-- The degenerate vocabulary oracle the server falls back to when the
corpus fails to load, src/server.py line 40: nothing is known. -/
def emptyVocab : String → Bool := fun _ => false

/-- A fold that adds a constant for each element satisfying a predicate
equals the start value plus the constant times the matching count. -/
lemma foldl_add_if {α : Type} (P : α → Bool) (c : ℚ) :
    ∀ (l : List α) (a : ℚ),
      l.foldl (fun acc x => if P x then acc + c else acc) a
        = a + c * ((l.filter P).length : ℚ) := by
  intro l
  induction l with
  | nil => intro a; simp
  | cons x xs ih =>
    intro a
    by_cases h : P x
    · simp only [List.foldl_cons, List.filter_cons, h, if_pos, ih, List.length_cons]
      push_cast
      ring
    · simp only [List.foldl_cons, List.filter_cons, h, if_neg, Bool.false_eq_true,
        ite_false, ih]

/-- A fold accumulating a function over a list equals the start value
plus the sum of the mapped list. -/
lemma foldl_add_map {α : Type} (f : α → ℚ) :
    ∀ (l : List α) (a : ℚ),
      l.foldl (fun acc x => acc + f x) a = a + (l.map f).sum := by
  intro l
  induction l with
  | nil => intro a; simp
  | cons x xs ih => intro a; simp only [List.foldl_cons, List.map_cons, List.sum_cons, ih]; ring

/-- The per-token score of the source decomposes as the spec formula
for the pre-reversal penalty plus the reversal term. -/
lemma token_score_eq (vocab : String → Bool) (st : List String) (t : String) :
    token_dyslexia_score vocab st t
      = spec_pre_reversal_penalty vocab t
        + (if strRev t = st.headD "" then 3 else 0) := by
  simp only [token_dyslexia_score, spec_pre_reversal_penalty]
  rw [foldl_add_if, foldl_add_if]
  by_cases h : strRev t = st.headD ""
  · rw [if_pos h, if_pos h]
  · rw [if_neg h, if_neg h]
    ring

/-- The per-token score reads the reference tokens only through their
first element. -/
lemma token_score_head (vocab : String → Bool) (st₁ st₂ : List String) (t : String)
    (h : st₁.headD "" = st₂.headD "") :
    token_dyslexia_score vocab st₁ t = token_dyslexia_score vocab st₂ t := by
  unfold token_dyslexia_score
  rw [h]

/-- The spec-side pre-reversal penalty is non-negative. -/
lemma spec_pre_nonneg (vocab : String → Bool) (t : String) :
    0 ≤ spec_pre_reversal_penalty vocab t := by
  unfold spec_pre_reversal_penalty
  have h1 : (0:ℚ) ≤ if vocab t then 0 else 3 := by split <;> norm_num
  positivity

/-- Every per-token score is non-negative. -/
lemma token_score_nonneg (vocab : String → Bool) (st : List String) (t : String) :
    0 ≤ token_dyslexia_score vocab st t := by
  rw [token_score_eq]
  have h1 := spec_pre_nonneg vocab t
  have h2 : (0:ℚ) ≤ if strRev t = st.headD "" then 3 else 0 := by split <;> norm_num
  linarith

/-- Under the non-emptiness guard the scorer returns the mean of the
per-token scores. -/
lemma calc_score_eq_mean (vocab : String → Bool) (u r : String)
    (hu : tokenize_and_clean_text u ≠ []) (hr : tokenize_and_clean_text r ≠ []) :
    calculate_word_dyslexia_score vocab u r
      = ((tokenize_and_clean_text u).map
          (token_dyslexia_score vocab (tokenize_and_clean_text r))).sum
        / ((tokenize_and_clean_text u).length : ℚ) := by
  unfold calculate_word_dyslexia_score
  have hu2 : (tokenize_and_clean_text u).isEmpty = false := by
    simp [List.isEmpty_iff, hu]
  have hr2 : (tokenize_and_clean_text r).isEmpty = false := by
    simp [List.isEmpty_iff, hr]
  simp only [hu2, hr2, Bool.or_self, Bool.false_eq_true, ite_false, foldl_add_map, zero_add]

/-- C1: for every token of the tokenized user response, the per-token
penalty before the reversal check equals 3.0 when the token is not in
the vocabulary, plus 3.0 for each of the 20 letter-confusion pairs both
of whose characters occur in the token (cumulative, no early exit),
plus 4.0 for each word-confusion group containing the token by exact
match (cumulative across groups). -/
theorem C1_per_token_penalty_formula :
    DYSLEXIC_LETTER_CONFUSIONS.length = 20 ∧
    ∀ (vocab : String → Bool) (sentence_tokens : List String) (t : String),
      token_dyslexia_score vocab sentence_tokens t
        = spec_pre_reversal_penalty vocab t
          + (if strRev t = sentence_tokens.headD "" then 3 else 0) :=
  ⟨by decide, token_score_eq⟩

/-- C2: the reversal penalty of 3.0 is added exactly when the reverse
of the response token equals the first token of the reference
tokenization, so the score depends on the reference only through its
emptiness and its first token; in particular the score of tac against
cat sat on mat exceeds the score of tac against mat sat on cat by
exactly the 3.0 reversal component, for every vocabulary. -/
theorem C2_reversal_first_token_only :
    (∀ (vocab : String → Bool) (u r₁ r₂ : String),
        (tokenize_and_clean_text r₁).headD "" = (tokenize_and_clean_text r₂).headD "" →
        (tokenize_and_clean_text r₁).isEmpty = (tokenize_and_clean_text r₂).isEmpty →
        calculate_word_dyslexia_score vocab u r₁ = calculate_word_dyslexia_score vocab u r₂)
    ∧ (∀ vocab : String → Bool,
        calculate_word_dyslexia_score vocab "tac" "cat sat on mat"
          = calculate_word_dyslexia_score vocab "tac" "mat sat on cat" + 3) := by
  constructor
  · intro vocab u r₁ r₂ hhead hemp
    unfold calculate_word_dyslexia_score
    have hts : ∀ t, token_dyslexia_score vocab (tokenize_and_clean_text r₁) t
        = token_dyslexia_score vocab (tokenize_and_clean_text r₂) t :=
      fun t => token_score_head vocab _ _ t hhead
    simp only [hemp, hts]
  · intro vocab
    have h1 : tokenize_and_clean_text "tac" = ["tac"] := by decide
    have h2 : tokenize_and_clean_text "cat sat on mat" = ["cat", "sat", "on", "mat"] := by
      decide
    have h3 : tokenize_and_clean_text "mat sat on cat" = ["mat", "sat", "on", "cat"] := by
      decide
    have h4 : strRev "tac" = "cat" := by decide
    have h5 : ¬ strRev "tac" = "mat" := by decide
    simp only [calculate_word_dyslexia_score, h1, h2, h3, List.isEmpty_cons,
      Bool.or_self, Bool.false_eq_true, ite_false, List.foldl_cons, List.foldl_nil,
      List.length_cons, List.length_nil, token_score_eq, List.headD_cons]
    rw [if_pos h4, if_neg h5]
    push_cast
    ring

/-- C7: the score returned by the scorer is non-negative for every
vocabulary, every user response and every reference sentence. -/
theorem C7_score_nonneg :
    ∀ (vocab : String → Bool) (word reference_sentence : String),
      0 ≤ calculate_word_dyslexia_score vocab word reference_sentence := by
  intro vocab u r
  simp only [calculate_word_dyslexia_score]
  split
  · exact le_refl 0
  · apply div_nonneg
    · rw [foldl_add_map]
      have h : ∀ x ∈ (tokenize_and_clean_text u).map
          (token_dyslexia_score vocab (tokenize_and_clean_text r)), 0 ≤ x := by
        intro x hx
        rcases List.mem_map.mp hx with ⟨t, _, rfl⟩
        exact token_score_nonneg vocab _ t
      have := List.sum_nonneg h
      linarith
    · exact Nat.cast_nonneg _

/-- C9: the scorer is deterministic: for vocabularies answering
identically on every string, the same pair of inputs yields the same
score. -/
theorem C9_deterministic :
    ∀ (vocab₁ vocab₂ : String → Bool) (word reference_sentence : String),
      (∀ t, vocab₁ t = vocab₂ t) →
      calculate_word_dyslexia_score vocab₁ word reference_sentence
        = calculate_word_dyslexia_score vocab₂ word reference_sentence := by
  intro v₁ v₂ u r h
  have hv : v₁ = v₂ := funext h
  rw [hv]

/-- C10: under the non-emptiness guard on both token sequences, the
reference token list has a genuine first element (so the index 0 access
is safe and headD returns it) and the response token count is non-zero
(so the final division is by a non-zero count). -/
theorem C10_guard_safety :
    ∀ (word reference_sentence : String),
      (tokenize_and_clean_text word).isEmpty = false →
      (tokenize_and_clean_text reference_sentence).isEmpty = false →
      (∃ h t, tokenize_and_clean_text reference_sentence = h :: t
          ∧ (tokenize_and_clean_text reference_sentence).headD "" = h)
      ∧ (tokenize_and_clean_text word).length ≠ 0 := by
  intro w r hw hr
  constructor
  · cases hrt : tokenize_and_clean_text r with
    | nil => rw [hrt] at hr; simp at hr
    | cons h t => exact ⟨h, t, rfl, rfl⟩
  · cases hwt : tokenize_and_clean_text w with
    | nil => rw [hwt] at hw; simp at hw
    | cons h t => simp [hwt]

/-- C3: the score is the sum of per-token penalties divided by the
response token count; the mean of a constant per-token penalty does not
depend on how often the token is repeated; and in particular the score
of cat equals the score of cat cat against every reference, for every
vocabulary. -/
theorem C3_mean_and_scaling :
    (∀ (vocab : String → Bool) (u r : String),
        tokenize_and_clean_text u ≠ [] → tokenize_and_clean_text r ≠ [] →
        calculate_word_dyslexia_score vocab u r
          = ((tokenize_and_clean_text u).map
              (token_dyslexia_score vocab (tokenize_and_clean_text r))).sum
            / ((tokenize_and_clean_text u).length : ℚ))
    ∧ (∀ (vocab : String → Bool) (st : List String) (t : String) (m n : Nat),
        m ≠ 0 → n ≠ 0 →
        ((List.replicate m t).map (token_dyslexia_score vocab st)).sum / (m : ℚ)
          = ((List.replicate n t).map (token_dyslexia_score vocab st)).sum / (n : ℚ))
    ∧ (∀ (vocab : String → Bool) (r : String),
        calculate_word_dyslexia_score vocab "cat" r
          = calculate_word_dyslexia_score vocab "cat cat" r) := by
  refine ⟨calc_score_eq_mean, ?_, ?_⟩
  · intro vocab st t m n hm hn
    rw [List.map_replicate, List.map_replicate, List.sum_replicate m, List.sum_replicate n,
      nsmul_eq_mul, nsmul_eq_mul,
      mul_div_cancel_left₀ _ (Nat.cast_ne_zero.mpr hm),
      mul_div_cancel_left₀ _ (Nat.cast_ne_zero.mpr hn)]
  · intro vocab r
    by_cases hr : tokenize_and_clean_text r = []
    · have hre : (tokenize_and_clean_text r).isEmpty = true := by simp [hr]
      simp [calculate_word_dyslexia_score, hre]
    · have h1 : tokenize_and_clean_text "cat" = ["cat"] := by decide
      have h2 : tokenize_and_clean_text "cat cat" = ["cat", "cat"] := by decide
      have hre : (tokenize_and_clean_text r).isEmpty = false := by
        simp [List.isEmpty_iff, hr]
      simp only [calculate_word_dyslexia_score, h1, h2, hre, List.isEmpty_cons,
        Bool.false_or, Bool.false_eq_true, ite_false, List.foldl_cons, List.foldl_nil,
        List.length_cons, List.length_nil]
      push_cast
      ring

/-- C4: the scorer returns 0 whenever either tokenization is empty, and
in particular on an empty user response or an empty reference
sentence. -/
theorem C4_empty_inputs_zero :
    ∀ (vocab : String → Bool) (u r : String),
      ((tokenize_and_clean_text u = [] ∨ tokenize_and_clean_text r = []) →
        calculate_word_dyslexia_score vocab u r = 0)
      ∧ calculate_word_dyslexia_score vocab "" r = 0
      ∧ calculate_word_dyslexia_score vocab u "" = 0 := by
  have key : ∀ (vocab : String → Bool) (u r : String),
      tokenize_and_clean_text u = [] ∨ tokenize_and_clean_text r = [] →
      calculate_word_dyslexia_score vocab u r = 0 := by
    intro vocab u r h
    simp only [calculate_word_dyslexia_score]
    rcases h with h | h <;> simp [h]
  intro vocab u r
  exact ⟨key vocab u r, key vocab "" r (Or.inl (by decide)),
    key vocab u "" (Or.inr (by decide))⟩

/-- C5: the aggregator rejects an empty attempt list with the
insufficient-data error; on non-empty lists it returns the mean of the
scores with the verdict positive exactly when the mean reaches the 3.5
threshold; the mean 3.5 of the scores 2 and 5 is at the boundary and is
classified positive, and three scores of 1 yield mean 1 and a negative
verdict. -/
theorem C5_aggregator :
    (∀ (responses : List String) (scores : List ℚ),
        ((responses = [] ∨ scores = []) →
          generate_final_report responses scores = .error "Insufficient data")
        ∧ (responses ≠ [] → scores ≠ [] →
            generate_final_report responses scores
              = .ok (scores.sum / (scores.length : ℚ),
                  if scores.sum / (scores.length : ℚ) ≥ DYSLEXIA_SCORE_THRESHOLD
                  then REPORT_VERDICT_POSITIVE else REPORT_VERDICT_NEGATIVE)))
    ∧ (∀ (responses : List String) (scores : List ℚ) (m : ℚ) (v : String),
        generate_final_report responses scores = .ok (m, v) →
        (v = REPORT_VERDICT_POSITIVE ↔ m ≥ DYSLEXIA_SCORE_THRESHOLD))
    ∧ generate_final_report ["a", "b"] [2, 5] = .ok (7/2, REPORT_VERDICT_POSITIVE)
    ∧ (7/2 : ℚ) = DYSLEXIA_SCORE_THRESHOLD
    ∧ generate_final_report ["a", "b", "c"] [1, 1, 1] = .ok (1, REPORT_VERDICT_NEGATIVE) := by
  have hth : DYSLEXIA_SCORE_THRESHOLD = 7/2 := by
    unfold DYSLEXIA_SCORE_THRESHOLD; norm_num
  have hpos_ne : REPORT_VERDICT_POSITIVE ≠ REPORT_VERDICT_NEGATIVE := by decide
  refine ⟨?_, ?_, ?_, hth.symm, ?_⟩
  · intro responses scores
    constructor
    · intro h
      simp only [generate_final_report]
      rcases h with h | h <;> simp [h]
    · intro h1 h2
      have hr : responses.isEmpty = false := by simp [List.isEmpty_iff, h1]
      have hs : scores.isEmpty = false := by simp [List.isEmpty_iff, h2]
      simp only [generate_final_report, hr, hs, Bool.or_self, Bool.false_eq_true, ite_false]
  · intro responses scores m v h
    simp only [generate_final_report] at h
    by_cases hg : (responses.isEmpty || scores.isEmpty) = true
    · rw [if_pos hg] at h
      exact absurd h (by simp)
    · rw [if_neg hg] at h
      simp only [Except.ok.injEq, Prod.mk.injEq] at h
      obtain ⟨hm, hv⟩ := h
      subst hm
      by_cases ht : scores.sum / (scores.length : ℚ) ≥ DYSLEXIA_SCORE_THRESHOLD
      · rw [if_pos ht] at hv
        exact iff_of_true hv.symm ht
      · rw [if_neg ht] at hv
        refine iff_of_false ?_ ht
        rw [← hv]
        exact fun hc => hpos_ne hc.symm
  · have hs : ([2, 5] : List ℚ).sum / ((([2, 5] : List ℚ).length : Nat) : ℚ) = 7/2 := by
      simp
      norm_num
    simp only [generate_final_report, List.isEmpty_cons, Bool.or_self, Bool.false_eq_true,
      ite_false, hs, hth]
    norm_num
  · have hs : ([1, 1, 1] : List ℚ).sum / ((([1, 1, 1] : List ℚ).length : Nat) : ℚ) = 1 := by
      simp
      norm_num
    simp only [generate_final_report, List.isEmpty_cons, Bool.or_self, Bool.false_eq_true,
      ite_false, hs, hth]
    norm_num

/-- C6: the analyze route always answers with HTTP status 200; when
either field is empty after stripping it answers the invalid-input
error body, and otherwise the score body with the isValid flag set. -/
theorem C6_analyze_response_contract :
    ∀ (vocab : String → Bool) (userText sentence : String),
      (analyze_response vocab userText sentence).status = 200
      ∧ ((pyStrip userText = "" ∨ pyStrip sentence = "") →
          analyze_response vocab userText sentence = ⟨200, .err "Invalid input"⟩)
      ∧ (pyStrip userText ≠ "" → pyStrip sentence ≠ "" →
          analyze_response vocab userText sentence
            = ⟨200, .result (calculate_word_dyslexia_score vocab
                (pyStrip userText) (pyStrip sentence)) true⟩) := by
  intro vocab u s
  refine ⟨?_, ?_, ?_⟩
  · simp only [analyze_response]
    split <;> rfl
  · intro h
    simp only [analyze_response]
    rcases h with h | h <;> simp [h]
  · intro h1 h2
    simp only [analyze_response]
    simp [h1, h2]

/-- C8 counterexample: the constant MAX_ATTEMPTS equals 3, yet report
generation accepts a session of four attempts and returns a mean and
verdict for it, so it does not operate only on sessions of at most
three attempts. -/
theorem C8_counterexample_four_attempts :
    MAX_ATTEMPTS = 3
    ∧ MAX_ATTEMPTS < (["r1", "r2", "r3", "r4"] : List String).length
    ∧ generate_final_report ["r1", "r2", "r3", "r4"] [4, 4, 4, 4]
        = .ok (4, REPORT_VERDICT_POSITIVE) := by
  refine ⟨rfl, by decide, ?_⟩
  have hs : ([4, 4, 4, 4] : List ℚ).sum / ((([4, 4, 4, 4] : List ℚ).length : Nat) : ℚ) = 4 := by
    simp
    norm_num
  have hth : DYSLEXIA_SCORE_THRESHOLD = 7/2 := by
    unfold DYSLEXIA_SCORE_THRESHOLD; norm_num
  simp only [generate_final_report, List.isEmpty_cons, Bool.or_self, Bool.false_eq_true,
    ite_false, hs, hth]
  norm_num

/-- C8 amended: MAX_ATTEMPTS is defined as 3, but report generation
does not enforce the bound; it succeeds on every session whose
responses and scores lists are non-empty, of any length. -/
theorem C8_amended_no_bound_enforced :
    MAX_ATTEMPTS = 3
    ∧ ∀ (responses : List String) (scores : List ℚ),
        responses ≠ [] → scores ≠ [] →
        ∃ result, generate_final_report responses scores = Except.ok result := by
  refine ⟨rfl, ?_⟩
  intro responses scores h1 h2
  have hr : responses.isEmpty = false := by simp [List.isEmpty_iff, h1]
  have hs : scores.isEmpty = false := by simp [List.isEmpty_iff, h2]
  simp only [generate_final_report, hr, hs, Bool.or_self, Bool.false_eq_true, ite_false]
  exact ⟨_, rfl⟩

/-- Witness for C2 at concrete inputs: two references sharing the first
token cat give the same score for the response tac under the empty
vocabulary. -/
theorem C2_witness :
    calculate_word_dyslexia_score emptyVocab "tac" "cat sat on mat"
      = calculate_word_dyslexia_score emptyVocab "tac" "cat runs" :=
  C2_reversal_first_token_only.1 emptyVocab "tac" "cat sat on mat" "cat runs"
    (by decide) (by decide)

/-- Witness for C3 at concrete inputs: the score of cat against dog
equals the mean of the per-token penalties. -/
theorem C3_witness :
    calculate_word_dyslexia_score emptyVocab "cat" "dog"
      = ((tokenize_and_clean_text "cat").map
          (token_dyslexia_score emptyVocab (tokenize_and_clean_text "dog"))).sum
        / ((tokenize_and_clean_text "cat").length : ℚ) :=
  C3_mean_and_scaling.1 emptyVocab "cat" "dog" (by decide) (by decide)

/-- Witness for C4 at concrete inputs: the empty response scores 0. -/
theorem C4_witness :
    calculate_word_dyslexia_score emptyVocab "" "abc" = 0 :=
  (C4_empty_inputs_zero emptyVocab "" "abc").1 (Or.inl (by decide))

/-- Witness for C5 at concrete inputs: a one-attempt session yields its
mean and the corresponding verdict. -/
theorem C5_witness :
    generate_final_report ["a"] [1]
      = .ok (([1] : List ℚ).sum / ((([1] : List ℚ).length : Nat) : ℚ),
          if ([1] : List ℚ).sum / ((([1] : List ℚ).length : Nat) : ℚ) ≥ DYSLEXIA_SCORE_THRESHOLD
          then REPORT_VERDICT_POSITIVE else REPORT_VERDICT_NEGATIVE) :=
  (C5_aggregator.1 ["a"] [1]).2 (by simp) (by simp)

/-- Witness for C6 at concrete inputs: non-empty stripped fields give
the 200 score response. -/
theorem C6_witness :
    analyze_response emptyVocab "cat" "dog"
      = ⟨200, .result (calculate_word_dyslexia_score emptyVocab
          (pyStrip "cat") (pyStrip "dog")) true⟩ :=
  (C6_analyze_response_contract emptyVocab "cat" "dog").2.2 (by decide) (by decide)

/-- Witness for the amended C8 at concrete inputs: a one-attempt
session is accepted. -/
theorem C8_witness :
    ∃ result, generate_final_report ["x"] [0] = Except.ok result :=
  C8_amended_no_bound_enforced.2 ["x"] [0] (by simp) (by simp)

/-- Witness for C9 at concrete inputs: the empty vocabulary compared
with itself gives equal scores. -/
theorem C9_witness :
    calculate_word_dyslexia_score emptyVocab "a" "b"
      = calculate_word_dyslexia_score emptyVocab "a" "b" :=
  C9_deterministic emptyVocab emptyVocab "a" "b" (fun _ => rfl)

/-- Witness for C10 at concrete inputs: for the response cat and
reference dog both partial operations are safe. -/
theorem C10_witness :
    (∃ h t, tokenize_and_clean_text "dog" = h :: t
        ∧ (tokenize_and_clean_text "dog").headD "" = h)
    ∧ (tokenize_and_clean_text "cat").length ≠ 0 :=
  C10_guard_safety "cat" "dog" (by decide) (by decide)

end DyslexiaScreen
